import Mathlib

/-!
Verification development for the vercel-backend storefront server
(`src/index.js`): a shallow embedding of its HTTP handlers (product
catalog, uploads, generic records, signup/login) together with proofs
of the spec-level properties of those handlers.

External collaborators (multer, mongoose, bcrypt, jsonwebtoken) are
embedded at the level the handlers observe them: the upload pipeline
runs the `fileFilter` callback over the declared files before the route
handler executes; the stores are lists; `bcrypt.hash`/`bcrypt.compare`
and `JSON.parse` are abstract function parameters; `jwt.sign` keeps the
payload, lifetime and key it was invoked with.
-/

namespace VercelBackend

/-! ## String helpers: JS regex `test` as substring containment, `path.extname` -/

/-- Does `p` occur as a prefix of `s` (lists of characters)? -/
def startsWithChars : List Char → List Char → Bool
  | _, [] => true
  | [], _ :: _ => false
  | c :: s, d :: p => c == d && startsWithChars s p

/-- Does `p` occur as a contiguous substring of `s` (lists of characters)? -/
def containsChars : List Char → List Char → Bool
  | [], p => p.isEmpty
  | c :: t, p => startsWithChars (c :: t) p || containsChars t p

/-- JS `toLowerCase` over the ASCII range, as a character-list map. -/
def strToLower (s : String) : String :=
  String.mk (s.data.map Char.toLower)

/-- JS `trim`: strip whitespace from both ends, as character lists. -/
def strTrim (s : String) : String :=
  String.mk (((s.data.dropWhile Char.isWhitespace).reverse.dropWhile
    Char.isWhitespace).reverse)

/-- JS `/jpeg|jpg|png|gif/.test(s)`: the regex has no anchors, so `test`
is satisfied exactly when `s` CONTAINS one of the four literals as a
substring (`src/index.js:53-57`). -/
def allowedTypesTest (s : String) : Bool :=
  containsChars s.data "jpeg".data || containsChars s.data "jpg".data ||
  containsChars s.data "png".data || containsChars s.data "gif".data

/-- Characters strictly after the last `.` of the list, if any `.` occurs. -/
def afterLastDot : List Char → Option (List Char)
  | [] => none
  | c :: t =>
    match afterLastDot t with
    | some r => some r
    | none => if c == '.' then some t else none

/-- Node `path.extname`: the text from the last `.` (inclusive) of the
name, except that a dot in leading position starts no extension
(`extname ".bashrc" = ""`). Upload names here contain no path separator. -/
def extname (name : String) : String :=
  match name.data with
  | [] => ""
  | _ :: t =>
    match afterLastDot t with
    | some r => "." ++ String.mk r
    | none => ""

/-! ## Image intake (multer): declared file data and the filter -/

/-- An uploaded file as the multer callbacks observe it: the declared
original name, the declared content type, and the stored filename
assigned by the disk storage engine. -/
structure UpFile where
  originalname : String
  mimetype : String
  filename : String
deriving DecidableEq, Repr

/-- The `fileFilter` callback (`src/index.js:52-60`): accept when the
lowercased extension of the original name passes the regex test AND the
mimetype passes the regex test. -/
def fileFilter (f : UpFile) : Bool :=
  allowedTypesTest (strToLower (extname f.originalname)) &&
  allowedTypesTest f.mimetype

/-- Spec-side reading of the allow-list, for comparison with
`fileFilter`: the file's declared extension is EXACTLY one of
`.jpeg/.jpg/.png/.gif` (case-insensitive) and its declared content-type
is EXACTLY `image/` followed by one of the four names. This follows the
spec words "validate each file's declared extension and declared
content-type against an allow-list of {jpeg, jpg, png, gif}". -/
def specFileAllowed (f : UpFile) : Bool :=
  (strToLower (extname f.originalname) ∈ [".jpeg", ".jpg", ".png", ".gif"]) &&
  (f.mimetype ∈ ["image/jpeg", "image/jpg", "image/png", "image/gif"])

/-- Stored path of an accepted file, as built by every handler:
`/uploads/<filename>`. -/
def uploadPath (f : UpFile) : String := "/uploads/" ++ f.filename

/-! ## Auth service: users, tokens, signup, login -/

/-- A persisted user record (`Users` model, `src/index.js:87-93`). The
`cartDate` placeholder is kept as an association list from slot index to
quantity, in insertion order. -/
structure User where
  id : String
  name : String
  email : String
  password : String
  cartDate : List (Nat × Nat)
deriving DecidableEq, Repr

/-- A signed bearer token as `jwt.sign(payload, key, {expiresIn})`
receives it: the payload's user id, the lifetime and the signing key. -/
structure Token where
  payloadUserId : String
  expiresIn : String
  key : String
deriving DecidableEq, Repr

/-- Both issuing sites (`src/index.js:241-242` and `260-261`) sign
`{user: {id}}` with the literal key `"secret_ecom"` and lifetime 1h. -/
def jwtSignUser (id : String) : Token :=
  { payloadUserId := id, expiresIn := "1h", key := "secret_ecom" }

/-- A JSON response envelope as the auth handlers emit it. -/
structure AuthResp where
  status : Nat
  success : Bool
  error : Option String
  token : Option Token
deriving DecidableEq, Repr

/-- The 300-slot zeroed cart built by the signup handler
(`src/index.js:230-231`): `cart[i] = 0` for `i = 0 .. 299`. -/
def zeroCart : List (Nat × Nat) :=
  (List.range 300).map (fun i => (i, 0))

/-- POST /signup (`src/index.js:222-249`). `hash` embeds `bcrypt.hash`
(string and cost); `freshId` is the id Mongo assigns to the saved
document. Returns the response and the resulting user store. -/
def signup (hash : String → Nat → String) (freshId : String)
    (st : List User) (username email password : String) :
    AuthResp × List User :=
  match st.find? (fun u => u.email == email) with
  | some _ =>
    ({ status := 400, success := false, error := some "Email already exists",
       token := none }, st)
  | none =>
    let hashedPassword := hash password 10
    let user : User :=
      { id := freshId, name := username, email := email,
        password := hashedPassword, cartDate := zeroCart }
    let token := jwtSignUser user.id
    ({ status := 200, success := true, error := none, token := some token },
     st ++ [user])

/-- POST /login (`src/index.js:251-268`). `compare` embeds
`bcrypt.compare` (plaintext against stored hash). -/
def login (compare : String → String → Bool)
    (st : List User) (email password : String) : AuthResp :=
  match st.find? (fun u => u.email == email) with
  | none =>
    { status := 400, success := false, error := some "Invalid Email",
      token := none }
  | some user =>
    if compare password user.password then
      { status := 200, success := true, error := none,
        token := some (jwtSignUser user.id) }
    else
      { status := 400, success := false, error := some "Invalid Password",
        token := none }

/-! ## Catalog service: products -/

/-- A structured JSON value, for the free-form `data` attribute payload
(`mongoose.Schema.Types.Mixed`). -/
inductive Jso where
  | null : Jso
  | bool (b : Bool) : Jso
  | num (n : Int) : Jso
  | str (s : String) : Jso
  | arr (xs : List Jso) : Jso
  | obj (fields : List (String × Jso)) : Jso

/-- A persisted product document (`ProductSchema`, `src/index.js:72-85`).
Scalar fields are optional because `findByIdAndUpdate` writes them
without running the schema validators, so an update can leave them
absent; `old_price` and `available` carry schema defaults applied at
creation. -/
structure Product where
  id : String
  name : Option String
  description : Option String
  new_price : Option Int
  old_price : Option Int
  category : Option String
  images : List String
  data : Jso
  available : Option Bool

/-- The form fields of a product create/update request body, after the
body parser: an absent field is `none`. -/
structure ProductBody where
  name : Option String
  description : Option String
  new_price : Option Int
  old_price : Option Int
  category : Option String
  available : Option Bool
  data : Option String

/-- The attribute payload computed by both product handlers
(`src/index.js:136-143` and `201-207`): when `req.body.data` is truthy
(present and non-empty), `JSON.parse` it, substituting `{}` on a parse
failure; an absent or empty field contributes no parse at all. Returns
`none` when the `if (req.body.data)` guard is not taken. -/
def parsedAttributes (parse : String → Option Jso) (dataField : Option String) :
    Option Jso :=
  match dataField with
  | none => none
  | some s => if s = "" then none else some ((parse s).getD (Jso.obj []))

/-- Mongoose validation run by `product.save()`: `name` (trimmed),
`description` and `category` are required non-empty strings and
`new_price` is a required number (`src/index.js:74-79`). -/
def validProduct (p : Product) : Bool :=
  (match p.name with | some s => s ≠ "" | none => false) &&
  (match p.description with | some s => s ≠ "" | none => false) &&
  p.new_price.isSome &&
  (match p.category with | some s => s ≠ "" | none => false)

/-- Result of a product route: a success status with the document the
handler serialized, or an error status with its message. -/
inductive PRes where
  | ok (status : Nat) (p : Product) : PRes
  | err (status : Nat) (msg : String) : PRes

/-- The multer stage of `upload.array("images", 50)`: the files of the
multipart stream are processed in order, each beyond the 50-file limit
aborts with the limit error, each failing `fileFilter` aborts with the
filter's error (`src/index.js:59`); with no custom error middleware,
Express turns either abort into a 500 before the route handler runs.
`n` counts the files already accepted. -/
def multerArrayCheck : Nat → List UpFile → Option String
  | _, [] => none
  | n, f :: t =>
    if n ≥ 50 then some "Too many files"
    else if fileFilter f then multerArrayCheck (n + 1) t
    else some "Only images are allowed"

/-- The product document the POST handler constructs
(`src/index.js:145-154`): `images` from the stored files, the attribute
payload (empty object when absent or failing to parse), the trim setter
on `name`, the schema default on `old_price`, and the handler's own
`available` default. -/
def mkNewProduct (parse : String → Option Jso) (freshId : String)
    (body : ProductBody) (files : List UpFile) : Product :=
  { id := freshId
    name := body.name.map strTrim
    description := body.description
    new_price := body.new_price
    old_price := some (body.old_price.getD 0)
    category := body.category
    images := files.map uploadPath
    data := (parsedAttributes parse body.data).getD (Jso.obj [])
    available := some (body.available.getD true) }

/-- POST /products (`src/index.js:130-162`): after the upload stage,
build the product document and persist it when the schema validation
passes; a save failure is caught and answered as a generic 500. Returns
the response and the resulting catalog. -/
def productPost (parse : String → Option Jso) (freshId : String)
    (st : List Product) (body : ProductBody) (files : List UpFile) :
    PRes × List Product :=
  match multerArrayCheck 0 files with
  | some msg => (PRes.err 500 msg, st)
  | none =>
    let product := mkNewProduct parse freshId body files
    if validProduct product then
      (PRes.ok 201 product, st ++ [product])
    else
      (PRes.err 500 "Something went wrong", st)

/-- GET /products (`src/index.js:164-172`): `Product.find()` returns the
whole catalog. -/
def getProducts (st : List Product) : List Product := st

/-- The update document the PUT handler passes to `findByIdAndUpdate`
(`src/index.js:188-207`). The six scalar keys are always present in the
JS object (`none` embeds the value `undefined`); `images` and `data` are
added only under their guards, so for them `none` embeds key absence. -/
structure UpdateDoc where
  name : Option String
  description : Option String
  new_price : Option Int
  old_price : Option Int
  category : Option String
  available : Option Bool
  images : Option (List String)
  data : Option Jso

/-- Builds `updatedData` exactly as the handler does: scalars copied
from the body (`available` defaulted to `true` when absent), `images`
only when at least one file arrived, `data` only when the body field is
truthy. -/
def mkUpdatedData (parse : String → Option Jso) (body : ProductBody)
    (files : List UpFile) : UpdateDoc :=
  { name := body.name
    description := body.description
    new_price := body.new_price
    old_price := body.old_price
    category := body.category
    available := some (body.available.getD true)
    images := if files.length > 0 then some (files.map uploadPath) else none
    data := parsedAttributes parse body.data }

/-- The store's write of the update document: every key present in the
document is written over the stored field (a key carrying `undefined`
clears the field), and the conditional keys `images`/`data` leave the
stored value untouched when absent. Validators do not run on
`findByIdAndUpdate`. -/
def applyUpdate (p : Product) (u : UpdateDoc) : Product :=
  { id := p.id
    name := u.name
    description := u.description
    new_price := u.new_price
    old_price := u.old_price
    category := u.category
    images := u.images.getD p.images
    data := u.data.getD p.data
    available := u.available }

/-- PUT /products/:id (`src/index.js:186-219`): after the upload stage,
build the update document, apply it to the matching product (404 when
none matches), and return the updated document (`{new: true}`). -/
def putProduct (parse : String → Option Jso) (st : List Product)
    (id : String) (body : ProductBody) (files : List UpFile) :
    PRes × List Product :=
  match multerArrayCheck 0 files with
  | some msg => (PRes.err 500 msg, st)
  | none =>
    let u := mkUpdatedData parse body files
    match st.find? (fun p => p.id == id) with
    | none => (PRes.err 404 "Product not found", st)
    | some p =>
      let p2 := applyUpdate p u
      (PRes.ok 200 p2, st.map (fun q => if q.id == id then p2 else q))

/-! ## Generic record service -/

/-- A persisted generic record (`DataSchema`, `src/index.js:65-69`):
every field optional, `imageUrl` written as `null` when no file came. -/
structure DataRec where
  title : Option String
  description : Option String
  imageUrl : Option String
deriving DecidableEq, Repr

/-- Result of a generic-record route. -/
inductive DRes where
  | ok (status : Nat) (r : DataRec) : DRes
  | err (status : Nat) (msg : String) : DRes
deriving DecidableEq, Repr

/-- POST /api/data (`src/index.js:104-117`): `upload.single("image")`
runs `fileFilter` over the optional file, then the handler persists
`{title, description, imageUrl}` with no field validation, answering
201. -/
def dataPost (st : List DataRec) (title description : Option String)
    (file : Option UpFile) : DRes × List DataRec :=
  if file.all fileFilter then
    let rec0 : DataRec :=
      { title := title
        description := description
        imageUrl := file.map uploadPath }
    (DRes.ok 201 rec0, st ++ [rec0])
  else
    (DRes.err 500 "Only images are allowed", st)

/-- The validation condition of `validProduct`, re-expressed on the
request body that `mkNewProduct` consumes (the trim setter applies to
`name` before the required check). -/
def validBody (b : ProductBody) : Bool :=
  (match b.name with | some s => strTrim s ≠ "" | none => false) &&
  (match b.description with | some s => s ≠ "" | none => false) &&
  b.new_price.isSome &&
  (match b.category with | some s => s ≠ "" | none => false)

/-- The product carried by a success response, if any. -/
def PRes.product? : PRes → Option Product
  | PRes.ok _ p => some p
  | PRes.err _ _ => none

/-! ## Concrete sample inputs used by counterexamples and witnesses -/

/-- An update-request body with every form field omitted. -/
def emptyPBody : ProductBody :=
  { name := none, description := none, new_price := none, old_price := none,
    category := none, available := none, data := none }

/-- A stored product that is currently unavailable, with every scalar
field present. -/
def unavailableProduct : Product :=
  { id := "p1", name := some "Shoe", description := some "A shoe",
    new_price := some 10, old_price := some 12, category := some "shoes",
    images := ["/uploads/1.png"], data := Jso.obj [],
    available := some false }

/-- A file whose declared extension `.fakejpg` and declared content
type `image/fakejpg` both lie outside the allow-list
{jpeg, jpg, png, gif}, yet both contain `jpg` as a substring. -/
def fakeJpgFile : UpFile :=
  { originalname := "a.fakejpg", mimetype := "image/fakejpg", filename := "f1" }

/-- A plain-text file, outside the allow-list under every reading. -/
def txtFile : UpFile :=
  { originalname := "notes.txt", mimetype := "text/plain", filename := "t1" }

/-- A create-request body carrying all the fields the schema requires. -/
def okPBody : ProductBody :=
  { name := some "Shoe", description := some "A shoe", new_price := some 10,
    old_price := none, category := some "shoes", available := none,
    data := none }

/-- A stored product used to exercise the image-replacement behaviour. -/
def twoImageProduct : Product :=
  { id := "p7", name := some "Bag", description := some "A bag",
    new_price := some 30, old_price := some 0, category := some "bags",
    images := ["/uploads/a.png", "/uploads/b.png"], data := Jso.obj [],
    available := some true }

/-- An accepted image upload. -/
def pngFile : UpFile :=
  { originalname := "c.png", mimetype := "image/png", filename := "c1.png" }

/-- A stored user as the signup handler persists it, for concrete
login and duplicate-signup runs. -/
def aliceUser : User :=
  { id := "u1", name := "alice", email := "a@b", password := "pw#h",
    cartDate := zeroCart }

/-- A create-request body additionally carrying an attributes payload
string. -/
def attrPBody : ProductBody :=
  { name := some "Shoe", description := some "A shoe", new_price := some 10,
    old_price := none, category := some "shoes", available := none,
    data := some "payload" }

/-! ## Helper lemmas -/

/-- A search over an appended singleton finds the new element when
nothing earlier matches. -/
theorem find?_append_last {α : Type} (l : List α) (p : α → Bool) (a : α)
    (h : ∀ x ∈ l, p x = false) (ha : p a = true) :
    (l ++ [a]).find? p = some a := by
  induction l with
  | nil => simp [List.find?, ha]
  | cons x t ih =>
    have hx : p x = false := h x (List.mem_cons_self x t)
    simp only [List.cons_append, List.find?_cons, hx, cond_false]
    exact ih (fun y hy => h y (List.mem_cons_of_mem x hy))

/-- The multer stage accepts a batch that fits the limit and passes the
filter throughout. -/
theorem multerArrayCheck_none_of_all (files : List UpFile) :
    ∀ n, n + files.length ≤ 50 → (∀ f ∈ files, fileFilter f = true) →
      multerArrayCheck n files = none := by
  induction files with
  | nil => intro n _ _; rfl
  | cons f t ih =>
    intro n hn hall
    have hflt : fileFilter f = true := hall f (List.mem_cons_self f t)
    have hlt : ¬ n ≥ 50 := by simp only [List.length_cons] at hn; omega
    simp only [multerArrayCheck, if_neg hlt, hflt, if_true]
    exact ih (n + 1) (by simp only [List.length_cons] at hn; omega)
      (fun g hg => hall g (List.mem_cons_of_mem f hg))

/-- The multer stage aborts with the filter's error when some file of a
batch that fits the limit fails the filter. -/
theorem multerArrayCheck_reject (files : List UpFile) :
    ∀ n, n + files.length ≤ 50 → (∃ f ∈ files, fileFilter f = false) →
      multerArrayCheck n files = some "Only images are allowed" := by
  induction files with
  | nil => intro n _ hbad; obtain ⟨f, hf, _⟩ := hbad; exact absurd hf (List.not_mem_nil f)
  | cons f t ih =>
    intro n hn hbad
    have hlt : ¬ n ≥ 50 := by simp only [List.length_cons] at hn; omega
    cases hflt : fileFilter f with
    | false => simp [multerArrayCheck, if_neg hlt, hflt]
    | true =>
      simp only [multerArrayCheck, if_neg hlt, hflt, if_true]
      obtain ⟨g, hg, hgf⟩ := hbad
      rcases List.mem_cons.mp hg with rfl | hgt
      · rw [hflt] at hgf; exact absurd hgf (by simp)
      · exact ih (n + 1) (by simp only [List.length_cons] at hn; omega) ⟨g, hgt, hgf⟩

/-- The schema validation of the constructed product document, computed
back on the request body. -/
theorem validProduct_mkNewProduct (parse : String → Option Jso) (freshId : String)
    (body : ProductBody) (files : List UpFile) :
    validProduct (mkNewProduct parse freshId body files) = validBody body := by
  cases body with
  | mk n d np op c av dt =>
    cases n <;> cases d <;> cases np <;> cases c <;>
      simp [validProduct, validBody, mkNewProduct]

/-- A create request whose files all pass the filter (within the limit)
and whose body passes the schema validation persists exactly the
constructed product. -/
theorem productPost_ok (parse : String → Option Jso) (freshId : String)
    (st : List Product) (body : ProductBody) (files : List UpFile)
    (hlen : files.length ≤ 50) (hall : ∀ f ∈ files, fileFilter f = true)
    (hv : validBody body = true) :
    productPost parse freshId st body files =
      (PRes.ok 201 (mkNewProduct parse freshId body files),
       st ++ [mkNewProduct parse freshId body files]) := by
  have hm := multerArrayCheck_none_of_all files 0 (by omega) hall
  simp [productPost, hm, validProduct_mkNewProduct, hv]

/-- An update request within the upload limit whose files all pass the
filter, against a store in which the id resolves, answers 200 with the
updated document and writes it back in place. -/
theorem putProduct_found (parse : String → Option Jso) (st : List Product)
    (id : String) (body : ProductBody) (files : List UpFile) (p : Product)
    (hlen : files.length ≤ 50) (hall : ∀ f ∈ files, fileFilter f = true)
    (hfind : st.find? (fun q => q.id == id) = some p) :
    putProduct parse st id body files =
      (PRes.ok 200 (applyUpdate p (mkUpdatedData parse body files)),
       st.map (fun q =>
         if q.id == id then applyUpdate p (mkUpdatedData parse body files) else q)) := by
  have hm := multerArrayCheck_none_of_all files 0 (by omega) hall
  simp [putProduct, hm, hfind]

/-! ## Claim theorems -/

/-- C3: signup with an email an existing user already holds answers 400
with error "Email already exists" and leaves the user store unchanged;
signup with a fresh email grows the store by exactly one and answers
success with a token. -/
theorem C3_signup_duplicate_vs_fresh (hash : String → Nat → String)
    (freshId : String) (st : List User) (username email password : String) :
    ((∃ u ∈ st, u.email = email) →
      signup hash freshId st username email password =
        ({ status := 400, success := false, error := some "Email already exists",
           token := none }, st)) ∧
    ((∀ u ∈ st, u.email ≠ email) →
      (signup hash freshId st username email password).2.length = st.length + 1 ∧
      (signup hash freshId st username email password).1 =
        { status := 200, success := true, error := none,
          token := some (jwtSignUser freshId) }) := by
  constructor
  · rintro ⟨u, hu, he⟩
    have hs : (st.find? (fun v => v.email == email)).isSome :=
      List.find?_isSome.mpr ⟨u, hu, by simp [he]⟩
    cases hfind : st.find? (fun v => v.email == email) with
    | none => rw [hfind] at hs; simp at hs
    | some w => simp [signup, hfind]
  · intro hnone
    have hfind : st.find? (fun v => v.email == email) = none :=
      List.find?_eq_none.mpr (fun x hx => by simp [hnone x hx])
    simp [signup, hfind]

/-- C3 witness: on the empty store a signup succeeds and the store ends
with one user; on the resulting store, a second signup with the same
email is answered 400 "Email already exists" and changes nothing. -/
theorem C3_witness :
    ((signup (fun p _ => p ++ "#h") "u1" [] "alice" "a@b" "pw").2.length = 0 + 1 ∧
     (signup (fun p _ => p ++ "#h") "u1" [] "alice" "a@b" "pw").1 =
       { status := 200, success := true, error := none,
         token := some (jwtSignUser "u1") }) ∧
    signup (fun p _ => p ++ "#h") "u2" [aliceUser] "bob" "a@b" "pw2" =
      ({ status := 400, success := false, error := some "Email already exists",
         token := none }, [aliceUser]) := by
  constructor
  · exact (C3_signup_duplicate_vs_fresh (fun p _ => p ++ "#h") "u1" [] "alice" "a@b" "pw").2
      (fun u hu => absurd hu (List.not_mem_nil u))
  · exact (C3_signup_duplicate_vs_fresh (fun p _ => p ++ "#h") "u2" _ "bob" "a@b" "pw2").1
      ⟨aliceUser, List.mem_singleton.mpr rfl, rfl⟩

/-- C4: login with an email matching no stored user answers 400
"Invalid Email" and carries no token; with the matched user, a failing
hash comparison answers 400 "Invalid Password", a succeeding one
answers success with a token for that user's id. -/
theorem C4_login_outcomes (compare : String → String → Bool) (st : List User)
    (email password : String) :
    ((∀ u ∈ st, u.email ≠ email) →
      login compare st email password =
        { status := 400, success := false, error := some "Invalid Email",
          token := none }) ∧
    (∀ u, st.find? (fun v => v.email == email) = some u →
      (compare password u.password = false →
        login compare st email password =
          { status := 400, success := false, error := some "Invalid Password",
            token := none }) ∧
      (compare password u.password = true →
        login compare st email password =
          { status := 200, success := true, error := none,
            token := some (jwtSignUser u.id) })) := by
  constructor
  · intro hnone
    have hfind : st.find? (fun v => v.email == email) = none :=
      List.find?_eq_none.mpr (fun x hx => by simp [hnone x hx])
    simp [login, hfind]
  · intro u hfind
    exact ⟨fun hc => by simp [login, hfind, hc], fun hc => by simp [login, hfind, hc]⟩

/-- C4 witness: against a one-user store, an unknown email, a wrong
password and the right password produce the three documented outcomes. -/
theorem C4_witness :
    login (fun p h => p == h) [aliceUser] "x@y" "pw#h" =
      { status := 400, success := false, error := some "Invalid Email",
        token := none } ∧
    login (fun p h => p == h) [aliceUser] "a@b" "bad" =
      { status := 400, success := false, error := some "Invalid Password",
        token := none } ∧
    login (fun p h => p == h) [aliceUser] "a@b" "pw#h" =
      { status := 200, success := true, error := none,
        token := some (jwtSignUser "u1") } := by
  refine ⟨?_, ?_, ?_⟩
  · exact (C4_login_outcomes (fun p h => p == h) [aliceUser] "x@y" "pw#h").1
      (fun u hu => by rw [List.mem_singleton.mp hu]; decide)
  · exact ((C4_login_outcomes (fun p h => p == h) [aliceUser] "a@b" "bad").2
      aliceUser rfl).1 (by decide)
  · exact ((C4_login_outcomes (fun p h => p == h) [aliceUser] "a@b" "pw#h").2
      aliceUser rfl).2 (by decide)

/-- C5: the token issued at registration and the token issued at a
subsequent successful login carry the same user id in their payload,
and both are signed for 1 hour with the same static key
"secret_ecom". -/
theorem C5_tokens_same_id_lifetime_key (hash : String → Nat → String)
    (compare : String → String → Bool) (freshId : String) (st : List User)
    (username email password pw : String)
    (hnew : ∀ u ∈ st, u.email ≠ email)
    (hcmp : compare pw (hash password 10) = true) :
    ∃ t1 t2,
      (signup hash freshId st username email password).1.token = some t1 ∧
      (login compare (signup hash freshId st username email password).2
        email pw).token = some t2 ∧
      t1.payloadUserId = freshId ∧ t2.payloadUserId = freshId ∧
      t1 = t2 ∧ t1.expiresIn = "1h" ∧ t2.expiresIn = "1h" ∧
      t1.key = "secret_ecom" ∧ t2.key = t1.key := by
  have hfind : st.find? (fun v => v.email == email) = none :=
    List.find?_eq_none.mpr (fun x hx => by simp [hnew x hx])
  have hsave : (signup hash freshId st username email password).2 =
      st ++ [{ id := freshId, name := username, email := email,
               password := hash password 10, cartDate := zeroCart }] := by
    simp [signup, hfind]
  have hfind2 : ((signup hash freshId st username email password).2).find?
      (fun v => v.email == email) =
      some { id := freshId, name := username, email := email,
             password := hash password 10, cartDate := zeroCart } := by
    rw [hsave]
    exact find?_append_last st _ _ (fun x hx => by simp [hnew x hx]) (by simp)
  refine ⟨jwtSignUser freshId, jwtSignUser freshId, ?_, ?_, rfl, rfl, rfl, rfl,
    rfl, rfl, rfl⟩
  · simp [signup, hfind]
  · simp [login, hfind2, hcmp]

/-- C5 witness: concrete registration then login of the same user, with
equality of hash output and comparison input discharged literally. -/
theorem C5_witness :
    ∃ t1 t2,
      (signup (fun p _ => p ++ "#h") "u5" [] "alice" "a@b" "pw").1.token = some t1 ∧
      (login (fun p h => p == h)
        (signup (fun p _ => p ++ "#h") "u5" [] "alice" "a@b" "pw").2
        "a@b" "pw#h").token = some t2 ∧
      t1.payloadUserId = "u5" ∧ t2.payloadUserId = "u5" ∧
      t1 = t2 ∧ t1.expiresIn = "1h" ∧ t2.expiresIn = "1h" ∧
      t1.key = "secret_ecom" ∧ t2.key = t1.key :=
  C5_tokens_same_id_lifetime_key (fun p _ => p ++ "#h") (fun p h => p == h)
    "u5" [] "alice" "a@b" "pw" "pw#h"
    (fun u hu => absurd hu (List.not_mem_nil u)) (by decide)

/-- C9: a successful signup appends exactly one user whose stored
password is the bcrypt hash of the submitted password at cost 10 and
whose cart placeholder maps exactly the slot indices 0..299, each to
quantity 0. -/
theorem C9_signup_hashed_password_zero_cart (hash : String → Nat → String)
    (freshId : String) (st : List User) (username email password : String)
    (hnew : ∀ u ∈ st, u.email ≠ email) :
    ∃ u, (signup hash freshId st username email password).2 = st ++ [u] ∧
      u.password = hash password 10 ∧
      u.cartDate.map Prod.fst = List.range 300 ∧
      (∀ kv ∈ u.cartDate, kv.2 = 0) := by
  have hfind : st.find? (fun v => v.email == email) = none :=
    List.find?_eq_none.mpr (fun x hx => by simp [hnew x hx])
  refine ⟨{ id := freshId, name := username, email := email,
            password := hash password 10, cartDate := zeroCart },
    by simp [signup, hfind], rfl, ?_, ?_⟩
  · simp only [zeroCart, List.map_map]
    exact List.map_id (List.range 300)
  · intro kv hkv
    simp only [zeroCart, List.mem_map] at hkv
    obtain ⟨i, -, hi⟩ := hkv
    rw [← hi]

/-- C9 witness: the concrete user persisted by a signup on the empty
store has the hashed password and the 300-slot zeroed cart. -/
theorem C9_witness :
    ∃ u, (signup (fun p _ => p ++ "#h") "u9" [] "bob" "b@c" "pw").2 = [] ++ [u] ∧
      u.password = (fun (p : String) (_ : Nat) => p ++ "#h") "pw" 10 ∧
      u.cartDate.map Prod.fst = List.range 300 ∧
      (∀ kv ∈ u.cartDate, kv.2 = 0) :=
  C9_signup_hashed_password_zero_cart (fun p _ => p ++ "#h") "u9" [] "bob" "b@c" "pw"
    (fun u hu => absurd hu (List.not_mem_nil u))

/-- C1 counterexample: updating the product `p1` with a request that
omits every field does NOT clear `available` — the handler writes
`true` there (`src/index.js:194`), so the stored product carries
`available = true`, not the absence the claim predicts for an omitted
field. -/
theorem C1_counterexample :
    ((putProduct (fun _ => none) [unavailableProduct] "p1"
        emptyPBody []).1.product?.map Product.available = some (some true)) ∧
    ((putProduct (fun _ => none) [unavailableProduct] "p1"
        emptyPBody []).1.product?.map Product.available ≠ some none) := by
  constructor
  · rfl
  · intro h
    rw [show (putProduct (fun _ => none) [unavailableProduct] "p1"
        emptyPBody []).1.product?.map Product.available = some (some true) from rfl] at h
    simp at h

/-- C1 (amended): the update handler rebuilds `name`, `description`,
`currentPrice` (`new_price`), `previousPrice` (`old_price`) and
`category` wholesale from the request — each of these five is written
with exactly the request's value, absent fields as `undefined` — while
`available` is rebuilt as the request's value when present and as
`true` when omitted, never written absent. -/
theorem C1_update_scalar_overwrite (parse : String → Option Jso)
    (st : List Product) (id : String) (body : ProductBody)
    (files : List UpFile) (p : Product)
    (hlen : files.length ≤ 50) (hall : ∀ f ∈ files, fileFilter f = true)
    (hfind : st.find? (fun q => q.id == id) = some p) :
    ∃ p2, (putProduct parse st id body files).1 = PRes.ok 200 p2 ∧
      p2.name = body.name ∧ p2.description = body.description ∧
      p2.new_price = body.new_price ∧ p2.old_price = body.old_price ∧
      p2.category = body.category ∧
      p2.available = some (body.available.getD true) := by
  refine ⟨applyUpdate p (mkUpdatedData parse body files), ?_, rfl, rfl, rfl,
    rfl, rfl, rfl⟩
  rw [putProduct_found parse st id body files p hlen hall hfind]

/-- C1 witness: the amended statement at the concrete one-product store
and the all-fields-omitted request. -/
theorem C1_witness :
    ∃ p2, (putProduct (fun _ => none) [unavailableProduct] "p1"
        emptyPBody []).1 = PRes.ok 200 p2 ∧
      p2.name = emptyPBody.name ∧ p2.description = emptyPBody.description ∧
      p2.new_price = emptyPBody.new_price ∧ p2.old_price = emptyPBody.old_price ∧
      p2.category = emptyPBody.category ∧
      p2.available = some (emptyPBody.available.getD true) :=
  C1_update_scalar_overwrite (fun _ => none) [unavailableProduct] "p1"
    emptyPBody [] unavailableProduct (by decide)
    (fun f hf => absurd hf (List.not_mem_nil f)) rfl

/-- C2 counterexample: the file `a.fakejpg` of content type
`image/fakejpg` has extension and content type outside the allow-list
{jpeg, jpg, png, gif}, yet the filter accepts it (the regex test is a
substring match): the create request persists a product, and the
update request succeeds and writes the new image path into the stored
product instead of failing. -/
theorem C2_counterexample :
    specFileAllowed fakeJpgFile = false ∧
    fileFilter fakeJpgFile = true ∧
    (productPost (fun _ => none) "c2" [] okPBody [fakeJpgFile]).2.length = 1 ∧
    ((productPost (fun _ => none) "c2" []
        okPBody [fakeJpgFile]).1.product?.map Product.images =
      some ["/uploads/f1"]) ∧
    ((putProduct (fun _ => none) [twoImageProduct] "p7"
        okPBody [fakeJpgFile]).1.product?.map Product.images =
      some ["/uploads/f1"]) := by
  refine ⟨by decide, by decide, rfl, rfl, rfl⟩

/-- C2 (amended): the filter tests each file's lowercased extension and
its content type for CONTAINING one of jpeg/jpg/png/gif as a substring,
not for exact allow-list membership; within the 50-file limit, a batch
containing any file that fails this substring test makes the whole
request — creation and update alike — fail with the upload error and
leaves the catalog unchanged, while a batch passing it throughout lets
the request through: a creation with a valid body persists a product,
an update whose id resolves answers 200 with the updated document. -/
theorem C2_upload_filter_gate (parse : String → Option Jso) (freshId : String)
    (st : List Product) (id : String) (body : ProductBody)
    (files : List UpFile) (hlen : files.length ≤ 50) :
    ((∃ f ∈ files, fileFilter f = false) →
      productPost parse freshId st body files =
        (PRes.err 500 "Only images are allowed", st) ∧
      putProduct parse st id body files =
        (PRes.err 500 "Only images are allowed", st)) ∧
    ((∀ f ∈ files, fileFilter f = true) →
      (validBody body = true →
        ∃ p, productPost parse freshId st body files =
          (PRes.ok 201 p, st ++ [p])) ∧
      (∀ p, st.find? (fun q => q.id == id) = some p →
        ∃ p2, (putProduct parse st id body files).1 = PRes.ok 200 p2)) := by
  constructor
  · intro hbad
    have hm := multerArrayCheck_reject files 0 (by omega) hbad
    exact ⟨by simp [productPost, hm], by simp [putProduct, hm]⟩
  · intro hall
    constructor
    · intro hv
      exact ⟨mkNewProduct parse freshId body files,
        productPost_ok parse freshId st body files hlen hall hv⟩
    · intro p hfind
      exact ⟨applyUpdate p (mkUpdatedData parse body files),
        by rw [putProduct_found parse st id body files p hlen hall hfind]⟩

/-- C2 witness: a `.txt` upload makes the create request fail with the
upload error leaving the empty catalog empty, and makes the update
request fail with the same error leaving the one-product catalog
unchanged. -/
theorem C2_witness :
    productPost (fun _ => none) "w2" [] okPBody [txtFile] =
      (PRes.err 500 "Only images are allowed", []) ∧
    putProduct (fun _ => none) [twoImageProduct] "p7" okPBody [txtFile] =
      (PRes.err 500 "Only images are allowed", [twoImageProduct]) := by
  constructor
  · exact ((C2_upload_filter_gate (fun _ => none) "w2" [] "p7" okPBody [txtFile]
      (by decide)).1 ⟨txtFile, List.mem_singleton.mpr rfl, by decide⟩).1
  · exact ((C2_upload_filter_gate (fun _ => none) "w2" [twoImageProduct] "p7"
      okPBody [txtFile]
      (by decide)).1 ⟨txtFile, List.mem_singleton.mpr rfl, by decide⟩).2

/-- C6: with the required fields present and accepted files, a create
request whose attributes string parses to `v` persists a product whose
`data` equals `v` exactly and the product listing returns it; a create
request whose attributes string fails to parse still succeeds,
persisting `data` as the empty object. -/
theorem C6_attributes_roundtrip (parse : String → Option Jso)
    (freshId : String) (st : List Product) (body : ProductBody)
    (files : List UpFile) (s : String)
    (hdata : body.data = some s) (hs : s ≠ "")
    (hlen : files.length ≤ 50) (hall : ∀ f ∈ files, fileFilter f = true)
    (hv : validBody body = true) :
    (∀ v, parse s = some v →
      ∃ p, productPost parse freshId st body files = (PRes.ok 201 p, st ++ [p]) ∧
        p.data = v ∧ p ∈ getProducts (productPost parse freshId st body files).2) ∧
    (parse s = none →
      ∃ p, productPost parse freshId st body files = (PRes.ok 201 p, st ++ [p]) ∧
        p.data = Jso.obj []) := by
  have hpost := productPost_ok parse freshId st body files hlen hall hv
  constructor
  · intro v hparse
    refine ⟨mkNewProduct parse freshId body files, hpost, ?_, ?_⟩
    · simp [mkNewProduct, parsedAttributes, hdata, hs, hparse]
    · rw [hpost]
      simp [getProducts]
  · intro hparse
    refine ⟨mkNewProduct parse freshId body files, hpost, ?_⟩
    simp [mkNewProduct, parsedAttributes, hdata, hs, hparse]

/-- C6 witness: a parse yielding `{color: "red", size: 42}` round-trips
into the listed product's `data`, and a failing parse still persists a
product with empty `data`. -/
theorem C6_witness :
    (∃ p, productPost
        (fun _ => some (Jso.obj [("color", Jso.str "red"), ("size", Jso.num 42)]))
        "w6" [] attrPBody [] = (PRes.ok 201 p, [] ++ [p]) ∧
      p.data = Jso.obj [("color", Jso.str "red"), ("size", Jso.num 42)] ∧
      p ∈ getProducts (productPost
        (fun _ => some (Jso.obj [("color", Jso.str "red"), ("size", Jso.num 42)]))
        "w6" [] attrPBody []).2) ∧
    (∃ p, productPost (fun _ => none) "w6b" [] attrPBody [] =
        (PRes.ok 201 p, [] ++ [p]) ∧ p.data = Jso.obj []) := by
  constructor
  · exact (C6_attributes_roundtrip
      (fun _ => some (Jso.obj [("color", Jso.str "red"), ("size", Jso.num 42)]))
      "w6" [] attrPBody [] "payload" rfl (by decide) (by decide)
      (fun f hf => absurd hf (List.not_mem_nil f)) (by decide)).1
      (Jso.obj [("color", Jso.str "red"), ("size", Jso.num 42)]) rfl
  · exact (C6_attributes_roundtrip (fun _ => none) "w6b" [] attrPBody [] "payload"
      rfl (by decide) (by decide)
      (fun f hf => absurd hf (List.not_mem_nil f)) (by decide)).2 rfl

/-- C7: an update request with no attached files leaves the stored
`images` sequence untouched, while one with at least one accepted file
replaces it entirely with the new upload paths. -/
theorem C7_update_images_replace_or_keep (parse : String → Option Jso)
    (st : List Product) (id : String) (body : ProductBody)
    (files : List UpFile) (p : Product)
    (hlen : files.length ≤ 50) (hall : ∀ f ∈ files, fileFilter f = true)
    (hfind : st.find? (fun q => q.id == id) = some p) :
    ∃ p2, (putProduct parse st id body files).1 = PRes.ok 200 p2 ∧
      (files = [] → p2.images = p.images) ∧
      (files ≠ [] → p2.images = files.map uploadPath) := by
  refine ⟨applyUpdate p (mkUpdatedData parse body files), ?_, ?_, ?_⟩
  · rw [putProduct_found parse st id body files p hlen hall hfind]
  · rintro rfl
    simp [applyUpdate, mkUpdatedData]
  · intro hne
    have hpos : files.length > 0 := List.length_pos.mpr hne
    simp [applyUpdate, mkUpdatedData, hpos]

/-- C7 witness: updating the two-image product with no files keeps both
images; updating it with one accepted file replaces them with the
single new path. -/
theorem C7_witness :
    (∃ p2, (putProduct (fun _ => none) [twoImageProduct] "p7"
        emptyPBody []).1 = PRes.ok 200 p2 ∧
      (([] : List UpFile) = [] → p2.images = twoImageProduct.images) ∧
      (([] : List UpFile) ≠ [] → p2.images = List.map uploadPath [])) ∧
    (∃ p2, (putProduct (fun _ => none) [twoImageProduct] "p7"
        emptyPBody [pngFile]).1 = PRes.ok 200 p2 ∧
      ([pngFile] = [] → p2.images = twoImageProduct.images) ∧
      ([pngFile] ≠ [] → p2.images = List.map uploadPath [pngFile])) := by
  constructor
  · exact C7_update_images_replace_or_keep (fun _ => none) [twoImageProduct]
      "p7" emptyPBody [] twoImageProduct (by decide)
      (fun f hf => absurd hf (List.not_mem_nil f)) rfl
  · exact C7_update_images_replace_or_keep (fun _ => none) [twoImageProduct]
      "p7" emptyPBody [pngFile] twoImageProduct (by decide)
      (fun f hf => by rw [List.mem_singleton.mp hf]; decide) rfl

/-- C8: with the required fields present, a create request with `n ≤ 50`
accepted files persists a product whose `images` sequence is exactly
the `/uploads/<filename>` path of each file in arrival order — length
`n`, and empty when no file is attached. -/
theorem C8_create_images_in_order (parse : String → Option Jso)
    (freshId : String) (st : List Product) (body : ProductBody)
    (files : List UpFile)
    (hlen : files.length ≤ 50) (hall : ∀ f ∈ files, fileFilter f = true)
    (hv : validBody body = true) :
    ∃ p, productPost parse freshId st body files = (PRes.ok 201 p, st ++ [p]) ∧
      p.images = files.map uploadPath ∧
      p.images.length = files.length ∧
      (files = [] → p.images = []) := by
  refine ⟨mkNewProduct parse freshId body files,
    productPost_ok parse freshId st body files hlen hall hv, rfl, ?_, ?_⟩
  · simp [mkNewProduct]
  · rintro rfl
    rfl

/-- C8 witness: creating with one accepted PNG persists a one-image
product with path `/uploads/c1.png`. -/
theorem C8_witness :
    ∃ p, productPost (fun _ => none) "w8" [] okPBody [pngFile] =
        (PRes.ok 201 p, [] ++ [p]) ∧
      p.images = List.map uploadPath [pngFile] ∧
      p.images.length = [pngFile].length ∧
      ([pngFile] = [] → p.images = []) :=
  C8_create_images_in_order (fun _ => none) "w8" [] okPBody [pngFile]
    (by decide) (fun f hf => by rw [List.mem_singleton.mp hf]; decide)
    (by decide)

/-- C10: the generic-record create endpoint validates nothing — with
any (possibly absent) title and description and no attached file it
answers 201 and persists the record with the given fields and with
`imageUrl` exactly `null`. -/
theorem C10_dataPost_no_validation (st : List DataRec)
    (title description : Option String) :
    dataPost st title description none =
      (DRes.ok 201 ⟨title, description, none⟩,
       st ++ [⟨title, description, none⟩]) := rfl

end VercelBackend
